import Mathlib

/-!
# Verification of the kosong chat-generation core

A shallow embedding, in Lean 4, of the parts of the `kosong` repository that
the checked claims are about:

* `src/kosong/message.py` — content parts, tool calls and their in-place
  merge methods (`TextPart.merge_in_place`, `ThinkPart.merge_in_place`,
  `ToolCall.merge_in_place`, `ToolCallPart.merge_in_place`);
* `src/kosong/_generate.py` — the streaming merge pipeline
  (`_MessageBuilder` and `generate`);
* `src/kosong/tooling/simple.py` and `src/kosong/tooling/error.py` —
  `SimpleToolset.handle` and the tool-error values;
* `src/kosong/chat_provider/anthropic.py` — `message_to_anthropic` and the
  history-encoding loop of `Anthropic.generate`;
* `src/kosong/chat_provider/openai_responses.py` — `message_to_openai`.

Python `str | None` fields are `Option String`; a Python method that
mutates `self` and returns `bool` is a function returning `Option` of the
updated value (`none` = the method returned `False` and left `self`
unchanged).  Exceptions are `Except` values.  The external libraries
`json` and `jsonschema` are modelled as explicit oracle parameters with
the outcome types the source handles (`json.loads` either returns a JSON
value or fails with a decode error; `jsonschema.validate` either passes
or fails with a validation error).
-/

namespace Kosong

/-- JSON values (`kosong.utils.typing.JsonType`).  Numbers are modelled as
integers; no claim involves non-integral numbers. -/
inductive Json where
  | null
  | bool (b : Bool)
  | num (n : Int)
  | str (s : String)
  | arr (xs : List Json)
  | obj (fields : List (String × Json))

/-- Python truthiness of a `str | None` value: `None` and `""` are falsy. -/
def pyTruthy : Option String → Bool
  | none => false
  | some s => !(s = "")

/-- Python `x or d` for `x : str | None` and a string default `d`:
falsy `x` (absent or empty) is replaced by `d`. -/
def pyOr (x : Option String) (d : String) : String :=
  match x with
  | none => d
  | some s => if s = "" then d else s

/-- The message roles (`kosong.message.Role`). -/
inductive Role where
  | system
  | user
  | assistant
  | tool
deriving DecidableEq, Repr

/-- A content part (`kosong.message.ContentPart` and its subclasses
`TextPart`, `ThinkPart`, `ImageURLPart`, `AudioURLPart`).  The `type`
discriminator string of the Python classes is the constructor. -/
inductive CPart where
  /-- `TextPart{text}` -/
  | text (text : String)
  /-- `ThinkPart{think, encrypted}` -/
  | think (think : String) (encrypted : Option String)
  /-- `ImageURLPart{image_url: {url, id}}` -/
  | imageURL (url : String) (id : Option String)
  /-- `AudioURLPart{audio_url: {url, id}}` -/
  | audioURL (url : String) (id : Option String)
deriving DecidableEq, Repr

/-- `ContentPart.merge_in_place` with dynamic dispatch over the subclass
of `self`, as in `kosong/message.py`:

* `TextPart.merge_in_place` concatenates the texts of two `TextPart`s;
* `ThinkPart.merge_in_place` refuses when `self.encrypted` is truthy,
  otherwise concatenates `think` and adopts a truthy `other.encrypted`;
* `ImageURLPart`/`AudioURLPart` inherit `MergeableMixin.merge_in_place`,
  which always returns `False`.

`some p` models a `True` return with `self` mutated to `p`; `none` models
a `False` return. -/
def CPart.mergeInPlace : CPart → CPart → Option CPart
  | .text t, .text t' => some (.text (t ++ t'))
  | .think th e, .think th' e' =>
      if pyTruthy e then none
      else some (.think (th ++ th') (if pyTruthy e' then e' else e))
  | _, _ => none

/-- `ToolCall.FunctionBody` (`kosong/message.py`). -/
structure FunctionBody where
  name : String
  arguments : Option String
deriving DecidableEq, Repr

/-- `ToolCall` (`kosong/message.py`).  The constant `type: "function"`
field and the optional `extras` annotation map (untouched by merging and
by every encoder modelled here) are omitted. -/
structure ToolCall where
  id : String
  function : FunctionBody
deriving DecidableEq, Repr

/-- `ToolCall.merge_in_place(other)` for `other` a `ToolCallPart` carrying
`arguments_part = ap`:

```python
if self.function.arguments is None:
    self.function.arguments = other.arguments_part
else:
    self.function.arguments += other.arguments_part or ""
```
-/
def ToolCall.mergeArgumentsPart (self : ToolCall) (ap : Option String) : ToolCall :=
  { self with
    function :=
      { self.function with
        arguments :=
          match self.function.arguments with
          | none => ap
          | some a => some (a ++ ap.getD "") } }

/-- `ToolCallPart.merge_in_place` on the `arguments_part` payloads:

```python
if self.arguments_part is None:
    self.arguments_part = other.arguments_part
else:
    self.arguments_part += other.arguments_part or ""
```
-/
def toolCallPartMerge (a b : Option String) : Option String :=
  match a with
  | none => b
  | some s => some (s ++ b.getD "")

/-- `StreamedMessagePart = ContentPart | ToolCall | ToolCallPart`
(`kosong/base/chat_provider.py`); the union the provider stream yields
and `_MessageBuilder`/`generate` consume. -/
inductive SPart where
  | content (p : CPart)
  | toolCall (tc : ToolCall)
  | toolCallPart (argumentsPart : Option String)
deriving DecidableEq, Repr

/-- `merge_in_place` at the `StreamedMessagePart` union, combining the
per-class methods: a `ToolCall` merges only a `ToolCallPart` into its
arguments, a `ToolCallPart` merges only another `ToolCallPart`, a content
part merges per `CPart.mergeInPlace`, everything else returns `False`. -/
def SPart.mergeInPlace : SPart → SPart → Option SPart
  | .content p, .content q => (p.mergeInPlace q).map .content
  | .content _, _ => none
  | .toolCall tc, .toolCallPart ap => some (.toolCall (tc.mergeArgumentsPart ap))
  | .toolCall _, _ => none
  | .toolCallPart a, .toolCallPart b => some (.toolCallPart (toolCallPartMerge a b))
  | .toolCallPart _, _ => none

/-- `_MessageBuilder` (`kosong/_generate.py`): the two accumulation lists. -/
structure MessageBuilder where
  content_parts : List CPart
  tool_calls : List ToolCall
deriving DecidableEq, Repr

/-- `_MessageBuilder.append`: content parts and tool calls are buffered;
anything else (an orphaned `ToolCallPart`) is dropped. -/
def MessageBuilder.append (b : MessageBuilder) : SPart → MessageBuilder
  | .content p => { b with content_parts := b.content_parts ++ [p] }
  | .toolCall tc => { b with tool_calls := b.tool_calls ++ [tc] }
  | .toolCallPart _ => b

/-- `_MessageBuilder.is_empty`. -/
def MessageBuilder.is_empty (b : MessageBuilder) : Bool :=
  b.content_parts.isEmpty && b.tool_calls.isEmpty

/-- `kosong.message.Message`.  The constructor always normalises string
content to a one-element part list, so `content` is a part list here.
The optional streaming flag field (whose Python name collides with a Lean
keyword) is carried by no claim and omitted. -/
structure Msg where
  role : Role
  name : Option String := none
  content : List CPart
  tool_calls : Option (List ToolCall) := none
  tool_call_id : Option String := none
deriving DecidableEq, Repr

/-- `_MessageBuilder.build`:

```python
return Message(role="assistant", content=self.content_parts,
               tool_calls=self.tool_calls or None)
```
-/
def MessageBuilder.build (b : MessageBuilder) : Msg :=
  { role := .assistant
    content := b.content_parts
    tool_calls := if b.tool_calls.isEmpty then none else some b.tool_calls }

/-- The streaming loop of `generate` (`kosong/_generate.py`): a single
pending part is merged with each arrival when possible; an unmergeable
arrival flushes the pending part into the builder; at end-of-stream the
pending part is flushed.  Callbacks receive copies and do not affect the
built message, so they are not modelled. -/
def mergeLoop : Option SPart → MessageBuilder → List SPart → MessageBuilder
  | none, b, [] => b
  | some pending, b, [] => b.append pending
  | none, b, p :: rest => mergeLoop (some p) b rest
  | some pending, b, p :: rest =>
      match pending.mergeInPlace p with
      | some merged => mergeLoop (some merged) b rest
      | none => mergeLoop (some p) (b.append pending) rest

/-- The builder state after `generate` has consumed the whole stream. -/
def runMerge (parts : List SPart) : MessageBuilder :=
  mergeLoop none ⟨[], []⟩ parts

/-- The message of `APIEmptyResponseError` in `generate`. -/
def emptyResponseMessage : String := "The API returned an empty response."

/-- `generate` (`kosong/_generate.py`), restricted to the merge result:
after the loop, raise `APIEmptyResponseError` when the builder is empty,
otherwise build the assistant message. -/
def generate (parts : List SPart) : Except String Msg :=
  let b := runMerge parts
  if b.is_empty then .error emptyResponseMessage else .ok b.build

/-- Concatenation of a list of strings, in order. -/
def strConcat : List String → String
  | [] => ""
  | s :: rest => s ++ strConcat rest

/-- The arguments accumulated by merging a sequence of `ToolCallPart`
fragments into a `ToolCall`, one `ToolCall.mergeArgumentsPart` at a time. -/
def foldArgs (a0 : Option String) (frags : List String) : Option String :=
  frags.foldl
    (fun acc s =>
      match acc with
      | none => some s
      | some a => some (a ++ s))
    a0

/-- Whether a streamed part is a bare `ToolCallPart`. -/
def SPart.isArgumentsFragment : SPart → Bool
  | .toolCallPart _ => true
  | _ => false

/-! ## Provider-side messages (`kosong/base/message.py`) -/

/-- `kosong.base.message.Message.content : str | list[ContentPart]`, the
content type the provider encoders branch on. -/
inductive PContent where
  | str (s : String)
  | parts (ps : List CPart)
deriving DecidableEq, Repr

/-- `kosong.base.message.Message`, the message type the provider encoders
are written against: content may be a bare string or a part list.  The
`developer` role and the optional streaming flag, touched by no claim,
are omitted. -/
structure PMsg where
  role : Role
  name : Option String := none
  content : PContent
  tool_calls : Option (List ToolCall) := none
  tool_call_id : Option String := none
deriving DecidableEq, Repr

/-- External Python behaviour threaded through the encoders: `loads`
models `json.loads` (`.error` is a `json.JSONDecodeError`), and
`reprParts` models the f-string rendering of a part list (used only by
the `system`-role branch of `message_to_anthropic` when the content is a
list, where Python interpolates the list object into the text). -/
structure PyEnv where
  loads : String → Except String Json
  reprParts : List CPart → String

/-- The wire-format role string of a role. -/
def Role.wireName : Role → String
  | .system => "system"
  | .user => "user"
  | .assistant => "assistant"
  | .tool => "tool"

/-- The f-string rendering of `Message.content` used by the system-role
branch of `message_to_anthropic`. -/
def pContentText (env : PyEnv) : PContent → String
  | .str s => s
  | .parts ps => env.reprParts ps

/-- The element-by-element `Except` traversal of a list: one result per
element, stopping at the first raised error.  This is the shape of every
encoding loop that can raise (`for m in history: messages.append(...)`,
the tool-call loop, …). -/
def mapMExcept {α β : Type} (f : α → Except String β) : List α → Except String (List β)
  | [] => .ok []
  | a :: rest =>
      match f a with
      | .error e => .error e
      | .ok b =>
          match mapMExcept f rest with
          | .error e => .error e
          | .ok bs => .ok (b :: bs)

/-! ## The Anthropic encoder (`kosong/chat_provider/anthropic.py`) -/

/-- `anthropic.types` image sources: the SDK accepts a URL source
(`URLImageSourceParam`) or a base64 source with a media type
(`Base64ImageSourceParam`). -/
inductive AImageSource where
  | url (url : String)
  | base64 (media_type : String) (data : String)

/-- Whether an image source is a base64 source. -/
def AImageSource.is_base64 : AImageSource → Bool
  | .base64 _ _ => true
  | .url _ => false

/-- Anthropic content block params (`TextBlockParam`, `ImageBlockParam`,
`ThinkingBlockParam`, `ToolUseBlockParam`, `ToolResultBlockParam`).
A `tool_result` block's content is a bare string or a list of blocks
(text/image), per `anthropic.types.tool_result_block_param.Content`. -/
inductive ABlock where
  | text (text : String)
  | image (source : AImageSource)
  | thinking (thinking : String) (signature : String)
  | toolUse (id : String) (name : String) (input : List (String × Json))
  | toolResult (tool_use_id : String) (content : String ⊕ List ABlock)

/-- `anthropic.types.MessageParam.content`. -/
inductive AContent where
  | str (s : String)
  | blocks (bs : List ABlock)

/-- `anthropic.types.MessageParam`. -/
structure AMessage where
  role : String
  content : AContent

/-- The content loop of `_tool_result_message_to_block`: text parts with
non-empty text and image parts are kept; any other part raises
`ChatProviderError` (f-string over the part's class). -/
def toolResultContentBlocks : List CPart → Except String (List ABlock)
  | [] => .ok []
  | .text t :: rest =>
      if t = "" then toolResultContentBlocks rest
      else (toolResultContentBlocks rest).map fun bs => .text t :: bs
  | .imageURL u _ :: rest =>
      (toolResultContentBlocks rest).map fun bs => .image (.url u) :: bs
  | .think _ _ :: _ =>
      .error "Anthropic API does not support ThinkPart in tool result"
  | .audioURL _ _ :: _ =>
      .error "Anthropic API does not support AudioURLPart in tool result"

/-- `_tool_result_message_to_block` (`kosong/chat_provider/anthropic.py`):
a tool message needs a `tool_call_id` and becomes one `tool_result`
block. -/
def tool_result_message_to_block (m : PMsg) : Except String ABlock :=
  match m.tool_call_id with
  | none => .error "Tool response is missing `tool_call_id`"
  | some tcid =>
      match m.content with
      | .str s => .ok (.toolResult tcid (Sum.inl s))
      | .parts ps =>
          (toolResultContentBlocks ps).map fun bs => .toolResult tcid (Sum.inr bs)

/-- The per-part block mapping of the user/assistant branch of
`message_to_anthropic`: text and image parts map to blocks (an image
always gets a URL source), a think part without a signature
(`encrypted is None`) is stripped, a signed think part becomes a
`thinking` block, and any other part is skipped. -/
def contentPartToBlocks : CPart → List ABlock
  | .text t => [.text t]
  | .imageURL u _ => [.image (.url u)]
  | .think th e =>
      match e with
      | none => []
      | some s => [.thinking th s]
  | .audioURL _ _ => []

/-- The tool-call loop of `message_to_anthropic`: truthy arguments must
parse (`json.loads`) to a JSON object, otherwise `ChatProviderError` is
raised; falsy arguments become the empty object. -/
def toolUseBlock (loads : String → Except String Json) (tc : ToolCall) :
    Except String ABlock :=
  if pyTruthy tc.function.arguments then
    match loads (tc.function.arguments.getD "") with
    | .error _ => .error "Tool call arguments must be valid JSON."
    | .ok (.obj fields) => .ok (.toolUse tc.id tc.function.name fields)
    | .ok _ => .error "Tool call arguments must be a JSON object."
  else .ok (.toolUse tc.id tc.function.name [])

/-- `message_to_anthropic` (`kosong/chat_provider/anthropic.py`): a
system message becomes a `<system>…</system>`-wrapped user message; a
tool message becomes a user message with exactly one `tool_result`
block; user/assistant string content is passed through (returning before
the tool-call loop); user/assistant part-list content maps each part via
`contentPartToBlocks` and appends one `tool_use` block per tool call. -/
def message_to_anthropic (env : PyEnv) (m : PMsg) : Except String AMessage :=
  match m.role with
  | .system =>
      .ok ⟨"user", .blocks
        [.text ("<system>" ++ pContentText env m.content ++ "</system>")]⟩
  | .tool =>
      (tool_result_message_to_block m).map fun b => ⟨"user", .blocks [b]⟩
  | r =>
      match m.content with
      | .str s => .ok ⟨r.wireName, .str s⟩
      | .parts ps =>
          (mapMExcept (toolUseBlock env.loads) (m.tool_calls.getD [])).map fun tus =>
            ⟨r.wireName, .blocks ((ps.map contentPartToBlocks).flatten ++ tus)⟩

/-- The history loop of `Anthropic.generate` (lines 125–127 of
`kosong/chat_provider/anthropic.py`): one wire message is appended per
history message.  The subsequent cache-control injection (lines 128–138)
only rewrites a `cache_control` key when the last block already carries
one — which `message_to_anthropic` never emits — so it leaves the
payload unchanged and has no counterpart here. -/
def anthropic_history (env : PyEnv) (history : List PMsg) :
    Except String (List AMessage) :=
  mapMExcept (message_to_anthropic env) history

/-- A `PyEnv` whose oracles are never consulted by the inputs it is used
with (arguments are falsy, no system-role list content). -/
def unusedPyEnv : PyEnv :=
  { loads := fun _ => .error "never parsed"
    reprParts := fun _ => "" }

/-- The tool-result history of spec scenario 8.3: user question,
assistant with two tool calls, then the two tool responses. -/
def weatherHistory : List PMsg :=
  [ { role := .user, content := .parts [.text "Tell me the weather"] },
    { role := .assistant, content := .parts [.text "On it"],
      tool_calls := some
        [⟨"call_weather", ⟨"get_weather", some ""⟩⟩,
         ⟨"call_time", ⟨"get_time", some ""⟩⟩] },
    { role := .tool, content := .parts [.text "68F"],
      tool_call_id := some "call_weather" },
    { role := .tool, content := .parts [.text "2:30 PM"],
      tool_call_id := some "call_time" } ]

/-! ## The OpenAI Responses encoder (`kosong/chat_provider/openai_responses.py`) -/

/-- Input content items (`ResponseInputMessageContentListParam`):
`input_text`, `input_image{detail, image_url}`, `input_audio{data,
format}` or `input_file{file_url}`. -/
inductive RContentItem where
  | inputText (text : String)
  | inputImage (detail : String) (image_url : String)
  | inputAudio (data : String) (format : String)
  | inputFileURL (file_url : String)
deriving DecidableEq, Repr

/-- Items of a `function_call_output` content list
(`ResponseFunctionCallOutputItemListParam`): `input_text`, `input_image`,
or `input_file` with either a `file_url` or inline `file_data`. -/
inductive RFuncOutItem where
  | inputText (text : String)
  | inputImage (image_url : String)
  | inputFileURL (file_url : String)
  | inputFileData (file_data : String)
deriving DecidableEq, Repr

/-- A `{type:"summary_text", text}` entry of a reasoning item. -/
structure SummaryText where
  text : String
deriving DecidableEq, Repr

/-- A `{type:"output_text", text, annotations:[]}` entry of an assistant
message item (`annotations` is always the empty list). -/
structure OutputText where
  text : String
deriving DecidableEq, Repr

/-- The `ResponseInputItemParam` items `message_to_openai` produces: an
input message with content items, an input message with bare string
content, an assistant output message, a reasoning item, a
`function_call` item, or a `function_call_output` item. -/
inductive RItem where
  | message (role : Role) (content : List RContentItem)
  | messageStr (role : Role) (content : String)
  | outputMessage (content : List OutputText)
  | reasoning (summary : List SummaryText) (encrypted_content : Option String)
  | functionCall (call_id : String) (name : String) (arguments : String)
  | functionCallOutput (call_id : String) (output : String ⊕ List RFuncOutItem)
deriving DecidableEq, Repr

/-- Python `s.split(sep, 1)` when the separator occurs (head piece and
joined remainder); `none` when it does not — there the Python two-name
unpacking raises `ValueError`, which the callers catch and turn into
`None`. -/
def splitFirst (s sep : String) : Option (String × String) :=
  match s.splitOn sep with
  | [] => none
  | [_] => none
  | h :: rest => some (h, String.intercalate sep rest)

/-- `_map_audio_url_to_input_item`: a `data:audio/…` URI with an
mp3/mpeg/wav subtype becomes `input_audio`, an `http(s)://` URL becomes
`input_file` with a `file_url`, anything else is dropped. -/
def map_audio_url_to_input_item (url : String) : Option RContentItem :=
  if url.startsWith "data:audio/" then
    match splitFirst url "," with
    | none => none
    | some (header, b64) =>
        match header.splitOn "/" with
        | _ :: sub :: _ =>
            let subtype := ((sub.splitOn ";").headD "").toLower
            if subtype = "mp3" ∨ subtype = "mpeg" then some (.inputAudio b64 "mp3")
            else if subtype = "wav" then some (.inputAudio b64 "wav")
            else none
        | _ => none
  else if url.startsWith "http://" ∨ url.startsWith "https://" then
    some (.inputFileURL url)
  else none

/-- `_map_audio_url_to_file_content`: `http(s)://` URLs become
`input_file` with a `file_url`; `data:audio/…` URIs become `input_file`
with inline `file_data`. -/
def map_audio_url_to_file_content (url : String) : Option RFuncOutItem :=
  if url.startsWith "http://" ∨ url.startsWith "https://" then
    some (.inputFileURL url)
  else if url.startsWith "data:audio/" then
    match splitFirst url "," with
    | none => none
    | some (_, b64) => some (.inputFileData b64)
  else none

/-- `_content_parts_to_input_items`: non-empty text, images (detail
`"auto"`), and mappable audio; other parts are ignored. -/
def content_parts_to_input_items : List CPart → List RContentItem
  | [] => []
  | .text t :: rest =>
      (if t = "" then [] else [.inputText t]) ++ content_parts_to_input_items rest
  | .imageURL u _ :: rest => .inputImage "auto" u :: content_parts_to_input_items rest
  | .audioURL u _ :: rest =>
      (map_audio_url_to_input_item u).toList ++ content_parts_to_input_items rest
  | .think _ _ :: rest => content_parts_to_input_items rest

/-- `_content_parts_to_output_items`: non-empty text parts only. -/
def content_parts_to_output_items : List CPart → List OutputText
  | [] => []
  | .text t :: rest =>
      (if t = "" then [] else [⟨t⟩]) ++ content_parts_to_output_items rest
  | _ :: rest => content_parts_to_output_items rest

/-- `_content_parts_to_function_output_items`: non-empty text, images,
and mappable audio; other parts are ignored. -/
def content_parts_to_function_output_items : List CPart → List RFuncOutItem
  | [] => []
  | .text t :: rest =>
      (if t = "" then [] else [.inputText t]) ++
        content_parts_to_function_output_items rest
  | .imageURL u _ :: rest =>
      .inputImage u :: content_parts_to_function_output_items rest
  | .audioURL u _ :: rest =>
      (map_audio_url_to_file_content u).toList ++
        content_parts_to_function_output_items rest
  | .think _ _ :: rest => content_parts_to_function_output_items rest

/-- `flush_pending_parts` in `message_to_openai`: a non-empty pending run
becomes one message item — `output_text` items for the assistant role,
input content items for every other role. -/
def flushPending (role : Role) (pending : List CPart) : List RItem :=
  if pending.isEmpty then []
  else if role = .assistant then
    [.outputMessage (content_parts_to_output_items pending)]
  else [.message role (content_parts_to_input_items pending)]

mutual

/-- The content walk of `message_to_openai` (the `while i < n` loop):
non-think parts accumulate in `pending`; a think part flushes `pending`
and opens a reasoning group keyed by its `encrypted` value. -/
def splitOnThinkAux (role : Role) : List CPart → List CPart → List RItem
  | pending, [] => flushPending role pending
  | pending, .think th e :: rest =>
      flushPending role pending ++ groupLoop role e [th] rest
  | pending, p :: rest => splitOnThinkAux role (pending ++ [p]) rest

/-- The inner `while i < n` loop of the content walk: consecutive think
parts whose `encrypted` equals the group's value extend the open
reasoning group; a think part with a different value closes the group
and opens a new one; any other part closes the group and resumes the
outer walk with that part pending. -/
def groupLoop (role : Role) (e : Option String) (summaries : List String) :
    List CPart → List RItem
  | [] => [.reasoning (summaries.map SummaryText.mk) e]
  | .think th e' :: rest =>
      if e' = e then groupLoop role e (summaries ++ [th]) rest
      else
        .reasoning (summaries.map SummaryText.mk) e :: groupLoop role e' [th] rest
  | p :: rest =>
      .reasoning (summaries.map SummaryText.mk) e :: splitOnThinkAux role [p] rest

end

/-- `message_to_openai` (`kosong/chat_provider/openai_responses.py`): a
tool message becomes one `function_call_output` item; every other
message maps string content to one message item, walks part-list content
splitting on think parts (contiguous think parts with the same
`encrypted` value coalesce into one reasoning item carrying that value,
non-think runs flush as message items), and appends one `function_call`
item per tool call, with falsy arguments defaulting to `"{}"`. -/
def message_to_openai (m : PMsg) : List RItem :=
  match m.role with
  | .tool =>
      [.functionCallOutput (m.tool_call_id.getD "")
        (match m.content with
         | .str s => Sum.inl s
         | .parts ps => Sum.inr (content_parts_to_function_output_items ps))]
  | r =>
      (match m.content with
       | .str s => [.messageStr r s]
       | .parts ps => if ps.isEmpty then [] else splitOnThinkAux r [] ps)
      ++ (m.tool_calls.getD []).map
          (fun tc => .functionCall tc.id tc.function.name (pyOr tc.function.arguments "{}"))

/-! ## Tooling: `SimpleToolset.handle` (`kosong/tooling/simple.py`) -/

/-- `ToolOk.output : str | ContentPart | Sequence[ContentPart]`
(`kosong/tooling/__init__.py`). -/
inductive ToolOutput where
  | ofString (s : String)
  | ofPart (p : CPart)
  | ofParts (ps : List CPart)
deriving DecidableEq, Repr

/-- `ToolOk` (`kosong/tooling/__init__.py`). -/
structure ToolOk where
  output : ToolOutput
  message : String := ""
  brief : String := ""
deriving DecidableEq, Repr

/-- `kosong.tooling.error.ToolError`: an error value (not an exception)
carrying a message.  The four subclasses below are its constructors with
their message formats. -/
structure ToolErrorValue where
  message : String
deriving DecidableEq, Repr

/-- `ToolNotFoundError(tool_name)` (`kosong/tooling/error.py`). -/
def ToolNotFoundError (tool_name : String) : ToolErrorValue :=
  ⟨"Tool `" ++ tool_name ++ "` not found"⟩

/-- `ToolParseError(message)` (`kosong/tooling/error.py`). -/
def ToolParseError (message : String) : ToolErrorValue :=
  ⟨"Error parsing JSON arguments: " ++ message⟩

/-- `ToolValidateError(message)` (`kosong/tooling/error.py`). -/
def ToolValidateError (message : String) : ToolErrorValue :=
  ⟨"Error validating JSON arguments: " ++ message⟩

/-- `ToolRuntimeError(message)` (`kosong/tooling/error.py`). -/
def ToolRuntimeError (message : String) : ToolErrorValue :=
  ⟨"Error running tool: " ++ message⟩

/-- `ToolReturnType = ToolOk | ToolError`. -/
inductive ToolReturnType where
  | ok (v : ToolOk)
  | error (e : ToolErrorValue)
deriving DecidableEq, Repr

/-- `ToolResult` (`kosong/tooling/__init__.py`). -/
structure ToolResult where
  tool_call_id : String
  result : ToolReturnType
deriving DecidableEq, Repr

/-- `CallableTool` as `SimpleToolset` consumes it: a registered name, a
JSON-Schema `parameters` document, and the awaited `call` coroutine.
`call arguments = .error msg` models an exception escaping the callable
with `str(exc) = msg`; `.ok ret` models a normal return (the `@final`
`CallableTool.call` wrapper guarantees `ret` is a `ToolReturnType`). -/
structure CallableTool where
  name : String
  description : String := ""
  parameters : Json
  call : Json → Except String ToolReturnType

/-- The external `json` / `jsonschema` libraries used by
`SimpleToolset.handle`, as oracles with the outcomes the source handles:
`loads` models `json.loads` (`.error msg` is a `json.JSONDecodeError`
with `str(e) = msg`), `validate` models
`jsonschema.validate(instance, schema)` on the registered (meta-valid)
schemas (`some msg` is a `jsonschema.ValidationError`). -/
structure JsonEnv where
  loads : String → Except String Json
  validate : Json → Json → Option String

/-- `SimpleToolset`: the `_tool_dict` name → tool mapping. -/
structure SimpleToolset where
  tool_dict : String → Option CallableTool

/-- `HandleResult = ToolResultFuture | ToolResult`: `handle` either
returns a `ToolResult` directly (`direct`) or schedules a concurrent
task whose future resolves to the given `ToolResult` (`task`). -/
inductive HandleResult where
  | direct (r : ToolResult)
  | task (r : ToolResult)
deriving DecidableEq, Repr

/-- The single `ToolResult` a `HandleResult` delivers (directly, or when
the scheduled task's future resolves). -/
def HandleResult.toolResult : HandleResult → ToolResult
  | .direct r => r
  | .task r => r

/-- `SimpleToolset.handle` (`kosong/tooling/simple.py`):

```python
if tool_call.function.name not in self._tool_dict:
    return ToolResult(tool_call.id, ToolNotFoundError(tool_call.function.name))
tool = self._tool_dict[tool_call.function.name]
try:
    arguments = json.loads(tool_call.function.arguments or "{}")
    jsonschema.validate(arguments, tool.parameters)
except json.JSONDecodeError as e:
    return ToolResult(tool_call.id, ToolParseError(str(e)))
except jsonschema.ValidationError as e:
    return ToolResult(tool_call.id, ToolValidateError(str(e)))

async def _call():
    try:
        ret = await tool.call(arguments)
        return ToolResult(tool_call.id, ret)
    except Exception as e:
        return ToolResult(tool_call.id, ToolRuntimeError(str(e)))

return asyncio.create_task(_call())
```

Being a total Lean function into `HandleResult`, the embedding carries
the contract that `handle` itself never raises. -/
def SimpleToolset.handle (env : JsonEnv) (ts : SimpleToolset) (tool_call : ToolCall) :
    HandleResult :=
  match ts.tool_dict tool_call.function.name with
  | none => .direct ⟨tool_call.id, .error (ToolNotFoundError tool_call.function.name)⟩
  | some tool =>
    match env.loads (pyOr tool_call.function.arguments "{}") with
    | .error e => .direct ⟨tool_call.id, .error (ToolParseError e)⟩
    | .ok arguments =>
      match env.validate arguments tool.parameters with
      | some e => .direct ⟨tool_call.id, .error (ToolValidateError e)⟩
      | none =>
        match tool.call arguments with
        | .ok ret => .task ⟨tool_call.id, ret⟩
        | .error e => .task ⟨tool_call.id, .error (ToolRuntimeError e)⟩

/-- A concrete tool whose callable raises (used to instantiate the
dispatcher theorems): `call` always fails with `str(exc) = "exploded"`. -/
def boomTool : CallableTool :=
  { name := "boom"
    parameters := .obj []
    call := fun _ => .error "exploded" }

/-- A concrete toolset registering only `boomTool`. -/
def boomToolset : SimpleToolset :=
  ⟨fun n => if n = "boom" then some boomTool else none⟩

/-- A concrete `json`/`jsonschema` oracle: only the string `"{}"` parses
(to the empty object) and every instance validates. -/
def simpleJsonEnv : JsonEnv :=
  { loads := fun s => if s = "{}" then .ok (.obj []) else .error "bad json"
    validate := fun _ _ => none }

section PipelineLemmas

/-- A run of consecutive `TextPart`s merges into the pending text part by
concatenation, leaving the builder untouched until the flush. -/
theorem mergeLoop_text_run (ts : List String) :
    ∀ (acc : String) (b : MessageBuilder),
      mergeLoop (some (.content (.text acc))) b
          (ts.map fun s => SPart.content (.text s)) =
        b.append (.content (.text (acc ++ strConcat ts))) := by
  induction ts with
  | nil => intro acc b; simp [mergeLoop, strConcat]
  | cons s rest ih =>
      intro acc b
      simp only [List.map_cons, mergeLoop, SPart.mergeInPlace, CPart.mergeInPlace,
        Option.map, strConcat]
      rw [ih (acc ++ s) b, ← String.append_assoc]

/-- A run of `ToolCallPart` fragments merges into the pending `ToolCall`,
accumulating the arguments, leaving the builder untouched until the flush. -/
theorem mergeLoop_toolCall_run (frags : List String) :
    ∀ (tc : ToolCall) (b : MessageBuilder),
      mergeLoop (some (.toolCall tc)) b
          (frags.map fun s => SPart.toolCallPart (some s)) =
        b.append (.toolCall ⟨tc.id, ⟨tc.function.name, foldArgs tc.function.arguments frags⟩⟩) := by
  induction frags with
  | nil => intro tc b; simp [mergeLoop, foldArgs]
  | cons s rest ih =>
      intro tc b
      simp only [List.map_cons, mergeLoop, SPart.mergeInPlace, ToolCall.mergeArgumentsPart]
      rw [ih]
      cases h : tc.function.arguments with
      | none => simp [foldArgs, h]
      | some a => simp [foldArgs, h, Option.getD]

/-- Reading `foldArgs` with `None` as the empty string: merging fragments
concatenates them after the initial arguments. -/
theorem foldArgs_getD (frags : List String) :
    ∀ a0 : Option String,
      (foldArgs a0 frags).getD "" = a0.getD "" ++ strConcat frags := by
  induction frags with
  | nil => intro a0; simp [foldArgs, strConcat]
  | cons s rest ih =>
      intro a0
      cases a0 with
      | none =>
          have h := ih (some s)
          simp only [foldArgs, List.foldl_cons] at h ⊢
          simp only [h, Option.getD_some, Option.getD_none, strConcat]
          simp
      | some a =>
          have h := ih (some (a ++ s))
          simp only [foldArgs, List.foldl_cons] at h ⊢
          simp only [h, Option.getD_some, strConcat, String.append_assoc]

/-- A pending `ToolCallPart` with nothing to merge into absorbs any
following fragments and is then dropped by the builder: the loop behaves
as if the leading fragments were not there. -/
theorem mergeLoop_orphan_fragment (parts : List SPart) :
    ∀ (a : Option String) (b : MessageBuilder),
      mergeLoop (some (.toolCallPart a)) b parts =
        mergeLoop none b (parts.dropWhile SPart.isArgumentsFragment) := by
  induction parts with
  | nil => intro a b; simp [mergeLoop, MessageBuilder.append]
  | cons p rest ih =>
      intro a b
      cases p with
      | toolCallPart c =>
          simp only [mergeLoop, SPart.mergeInPlace, List.dropWhile,
            SPart.isArgumentsFragment]
          exact ih _ b
      | content q =>
          simp only [mergeLoop, SPart.mergeInPlace, List.dropWhile,
            SPart.isArgumentsFragment, MessageBuilder.append]
      | toolCall tc =>
          simp only [mergeLoop, SPart.mergeInPlace, List.dropWhile,
            SPart.isArgumentsFragment, MessageBuilder.append]

end PipelineLemmas

/-- C2: the streaming merge raises the empty-response error if and only
if, after consuming the whole provider stream, the builder holds no
content part and no tool call; when at least one content part or tool
call survives, `generate` returns a `Message` with role `assistant` and
no error is raised. -/
theorem claim_C2 (parts : List SPart) :
    (generate parts = .error emptyResponseMessage ↔
      (runMerge parts).content_parts = [] ∧ (runMerge parts).tool_calls = [])
    ∧ (∀ m, generate parts = .ok m → m.role = .assistant) := by
  have hempty : ((runMerge parts).is_empty = true) ↔
      ((runMerge parts).content_parts = [] ∧ (runMerge parts).tool_calls = []) := by
    simp [MessageBuilder.is_empty, List.isEmpty_iff]
  constructor
  · rw [← hempty]
    unfold generate
    cases h : (runMerge parts).is_empty <;> simp [h]
  · intro m hm
    unfold generate at hm
    cases h : (runMerge parts).is_empty <;> simp [h] at hm
    subst hm
    rfl

/-- Closed instance of `claim_C2`: a stream with one text part yields an
assistant message. -/
theorem claim_C2_witness :
    ({ role := .assistant, content := [.text "hi"] } : Msg).role = .assistant :=
  (claim_C2 [.content (.text "hi")]).2 _ rfl

/-- C3: a `ToolCall` with initial arguments `a0` (`None` read as the
empty string) followed by fragments `a1 … ak` merges to a single tool
call whose arguments are the concatenation `a0 ++ a1 ++ … ++ ak`; and a
`ToolCallPart` with no preceding `ToolCall` (whatever the builder already
holds) is discarded together with the fragments glued to it, never
reaching the built message. -/
theorem claim_C3 (id nm : String) (a0 : Option String) (frags : List String) :
    ((runMerge (SPart.toolCall ⟨id, ⟨nm, a0⟩⟩ ::
        frags.map fun s => SPart.toolCallPart (some s))).tool_calls.map
        fun tc => (tc.id, tc.function.name, tc.function.arguments.getD "")) =
      [(id, nm, a0.getD "" ++ strConcat frags)]
    ∧ (runMerge (SPart.toolCall ⟨id, ⟨nm, a0⟩⟩ ::
        frags.map fun s => SPart.toolCallPart (some s))).content_parts = []
    ∧ ∀ (a : Option String) (b : MessageBuilder) (rest : List SPart),
        mergeLoop (some (.toolCallPart a)) b rest =
          mergeLoop none b (rest.dropWhile SPart.isArgumentsFragment) := by
  refine ⟨?_, ?_, fun a b rest => mergeLoop_orphan_fragment rest a b⟩ <;>
  · unfold runMerge
    simp only [mergeLoop]
    rw [mergeLoop_toolCall_run frags ⟨id, ⟨nm, a0⟩⟩ ⟨[], []⟩]
    simp [MessageBuilder.append, foldArgs_getD]

/-- C4: consecutive `TextPart`s collapse into a single `TextPart`
carrying the concatenation of their texts, and the concrete stream
`"Hello, "`, `"world"`, `"!"` produces an assistant message whose
content is exactly `[TextPart "Hello, world!"]`. -/
theorem claim_C4 (t : String) (ts : List String) :
    generate ((t :: ts).map fun s => SPart.content (.text s)) =
      .ok { role := .assistant, content := [.text (strConcat (t :: ts))],
            tool_calls := none }
    ∧ generate [.content (.text "Hello, "), .content (.text "world"),
        .content (.text "!")] =
      .ok { role := .assistant, content := [.text "Hello, world!"],
            tool_calls := none } := by
  refine ⟨?_, rfl⟩
  unfold generate runMerge
  simp only [List.map_cons, mergeLoop]
  rw [mergeLoop_text_run ts t ⟨[], []⟩]
  simp [MessageBuilder.append, MessageBuilder.is_empty, MessageBuilder.build, strConcat]

/-- C5: `ThinkPart.merge_in_place` fails when the left part is sealed
(its `encrypted` signature is set, i.e. a non-empty string); on an
unsealed left part it succeeds, concatenating the thinking text and
adopting the right-hand signature when the right part carries one. -/
theorem claim_C5 (ath bth : String) (ae be : Option String) :
    (pyTruthy ae = true →
      CPart.mergeInPlace (.think ath ae) (.think bth be) = none)
    ∧ (pyTruthy ae = false →
      CPart.mergeInPlace (.think ath ae) (.think bth be) =
        some (.think (ath ++ bth) (if pyTruthy be then be else ae))) := by
  constructor <;> intro h <;> simp [CPart.mergeInPlace, h]

/-- Closed instance of `claim_C5`: a sealed part refuses the merge, an
unsealed part concatenates and adopts the incoming signature. -/
theorem claim_C5_witness :
    CPart.mergeInPlace (.think "a " (some "sig1")) (.think "b" none) = none
    ∧ CPart.mergeInPlace (.think "a " none) (.think "b" (some "sig2")) =
        some (.think "a b" (some "sig2")) :=
  ⟨(claim_C5 "a " "b" (some "sig1") none).1 (by decide),
   (claim_C5 "a " "b" none (some "sig2")).2 (by decide)⟩

/-- C10 (implicit): `ThinkPart.merge_in_place` treats an empty-string
signature as unset — a left part whose `encrypted` is `None` or `""`
always merges successfully, concatenating the texts, and the left
signature is replaced only when the right one is a non-empty string. -/
theorem claim_C10 (ath bth : String) (ae be : Option String)
    (h : ae = none ∨ ae = some "") :
    CPart.mergeInPlace (.think ath ae) (.think bth be) =
      some (.think (ath ++ bth) (if pyTruthy be then be else ae))
    ∧ ((be = none ∨ be = some "") →
      CPart.mergeInPlace (.think ath ae) (.think bth be) =
        some (.think (ath ++ bth) ae)) := by
  have hae : pyTruthy ae = false := by rcases h with h | h <;> subst h <;> decide
  refine ⟨by simp [CPart.mergeInPlace, hae], fun hb => ?_⟩
  have hbe : pyTruthy be = false := by rcases hb with hb | hb <;> subst hb <;> decide
  simp [CPart.mergeInPlace, hae, hbe]

/-- Closed instance of `claim_C10`: an empty-string signature on either
side behaves as unset. -/
theorem claim_C10_witness :
    CPart.mergeInPlace (.think "x" (some "")) (.think "y" (some "")) =
      some (.think "xy" (some "")) :=
  (claim_C10 "x" "y" (some "") (some "") (Or.inr rfl)).2 (Or.inr rfl)

/-- C1: for every `ToolCall` `t`, `SimpleToolset.handle` yields (directly
or through the scheduled task) exactly one `ToolResult` whose
`tool_call_id` equals `t.id` and never raises — every branch of the total
dispatch function delivers one result — and an exception raised inside
the tool callable surfaces as a runtime `ToolError` value carried by that
result rather than propagated. -/
theorem claim_C1 (env : JsonEnv) (ts : SimpleToolset) (t : ToolCall) :
    (SimpleToolset.handle env ts t).toolResult.tool_call_id = t.id
    ∧ (∀ tool args e,
        ts.tool_dict t.function.name = some tool →
        env.loads (pyOr t.function.arguments "{}") = .ok args →
        env.validate args tool.parameters = none →
        tool.call args = .error e →
        SimpleToolset.handle env ts t =
          .task ⟨t.id, .error (ToolRuntimeError e)⟩) := by
  constructor
  · unfold SimpleToolset.handle
    cases h1 : ts.tool_dict t.function.name with
    | none => simp [h1, HandleResult.toolResult]
    | some tool =>
      cases h2 : env.loads (pyOr t.function.arguments "{}") with
      | error e => simp [h1, h2, HandleResult.toolResult]
      | ok args =>
        cases h3 : env.validate args tool.parameters with
        | some e => simp [h1, h2, h3, HandleResult.toolResult]
        | none =>
          cases h4 : tool.call args <;>
            simp [h1, h2, h3, h4, HandleResult.toolResult]
  · intro tool args e h1 h2 h3 h4
    unfold SimpleToolset.handle
    simp [h1, h2, h3, h4]

/-- Closed instance of `claim_C1`: a callable that raises `"exploded"`
resolves to a runtime `ToolError` result for the same call id. -/
theorem claim_C1_witness :
    SimpleToolset.handle simpleJsonEnv boomToolset ⟨"call-1", ⟨"boom", none⟩⟩ =
      .task ⟨"call-1", .error (ToolRuntimeError "exploded")⟩ :=
  (claim_C1 simpleJsonEnv boomToolset ⟨"call-1", ⟨"boom", none⟩⟩).2
    boomTool (.obj []) "exploded" rfl rfl rfl rfl

/-- C9, counterexample: an unregistered tool name `get_weather` yields
the message ``Tool `get_weather` not found`` — the name is wrapped in
backticks by `ToolNotFoundError.__init__`, not in the single quotes the
claim states. -/
theorem claim_C9_counterexample :
    (SimpleToolset.handle simpleJsonEnv boomToolset
        ⟨"c9", ⟨"get_weather", none⟩⟩).toolResult =
      ⟨"c9", .error ⟨"Tool `get_weather` not found"⟩⟩
    ∧ "Tool `get_weather` not found" ≠ "Tool 'get_weather' not found" :=
  ⟨rfl, by decide⟩

/-- C9  as amended: `SimpleToolset.handle` maps each failure to the
specified error value — an unregistered tool name `X` yields a
`ToolError` with message ``Tool `X` not found`` (backticks, not single
quotes); arguments that are not valid JSON yield a `ToolParseError`;
arguments that parse but violate the tool's schema yield a
`ToolValidateError`; and empty or absent arguments are handled exactly
like the JSON-object text `"{}"` before parsing and validation. -/
theorem claim_C9_amended (env : JsonEnv) (ts : SimpleToolset) (t : ToolCall) :
    (ts.tool_dict t.function.name = none →
      SimpleToolset.handle env ts t =
        .direct ⟨t.id, .error (ToolNotFoundError t.function.name)⟩)
    ∧ (ToolNotFoundError t.function.name).message =
        "Tool `" ++ t.function.name ++ "` not found"
    ∧ (∀ tool e, ts.tool_dict t.function.name = some tool →
        env.loads (pyOr t.function.arguments "{}") = .error e →
        SimpleToolset.handle env ts t =
          .direct ⟨t.id, .error (ToolParseError e)⟩)
    ∧ (∀ tool args e, ts.tool_dict t.function.name = some tool →
        env.loads (pyOr t.function.arguments "{}") = .ok args →
        env.validate args tool.parameters = some e →
        SimpleToolset.handle env ts t =
          .direct ⟨t.id, .error (ToolValidateError e)⟩)
    ∧ ((t.function.arguments = none ∨ t.function.arguments = some "") →
        SimpleToolset.handle env ts t =
          SimpleToolset.handle env ts ⟨t.id, ⟨t.function.name, some "{}"⟩⟩) := by
  refine ⟨fun h1 => ?_, rfl, fun tool e h1 h2 => ?_, fun tool args e h1 h2 h3 => ?_,
    fun h => ?_⟩
  · unfold SimpleToolset.handle
    simp [h1]
  · unfold SimpleToolset.handle
    simp [h1, h2]
  · unfold SimpleToolset.handle
    simp [h1, h2, h3]
  · have harg : pyOr t.function.arguments "{}" = pyOr (some "{}") "{}" := by
      rcases h with h | h <;> rw [h] <;> rfl
    unfold SimpleToolset.handle
    rw [harg]

/-- Closed instance of `claim_C9_amended`: the not-found branch on a
concrete unregistered name, and the empty-arguments defaulting on a
concrete call. -/
theorem claim_C9_amended_witness :
    SimpleToolset.handle simpleJsonEnv boomToolset ⟨"c9w", ⟨"nope", none⟩⟩ =
      .direct ⟨"c9w", .error (ToolNotFoundError "nope")⟩
    ∧ SimpleToolset.handle simpleJsonEnv boomToolset ⟨"c9w", ⟨"boom", some ""⟩⟩ =
        SimpleToolset.handle simpleJsonEnv boomToolset ⟨"c9w", ⟨"boom", some "{}"⟩⟩ :=
  ⟨(claim_C9_amended simpleJsonEnv boomToolset ⟨"c9w", ⟨"nope", none⟩⟩).1 rfl,
   (claim_C9_amended simpleJsonEnv boomToolset
      ⟨"c9w", ⟨"boom", some ""⟩⟩).2.2.2.2 (Or.inr rfl)⟩

/-- A successful `mapMExcept` yields exactly one result per input
element. -/
theorem mapMExcept_length {α β : Type} (f : α → Except String β) :
    ∀ (l : List α) (ws : List β), mapMExcept f l = .ok ws → ws.length = l.length := by
  intro l
  induction l with
  | nil =>
      intro ws h
      simp only [mapMExcept] at h
      injection h with h
      subst h
      rfl
  | cons a rest ih =>
      intro ws h
      simp only [mapMExcept] at h
      cases hf : f a with
      | error e => rw [hf] at h; simp at h
      | ok b =>
          rw [hf] at h
          cases hr : mapMExcept f rest with
          | error e => rw [hr] at h; simp at h
          | ok bs =>
              rw [hr] at h
              injection h with h
              subst h
              simp [ih bs hr]

/-- C6, counterexample: in `kosong/chat_provider/anthropic.py`,
consecutive tool-role messages are *not* batched — the history of the
claim's example (tool-call arguments left falsy so no JSON parsing is
involved) encodes to four wire messages, not three, the last two each a
user message with a single `tool_result` block. -/
theorem claim_C6_counterexample :
    anthropic_history unusedPyEnv weatherHistory = .ok
      [ ⟨"user", .blocks [.text "Tell me the weather"]⟩,
        ⟨"assistant", .blocks
          [.text "On it",
           .toolUse "call_weather" "get_weather" [],
           .toolUse "call_time" "get_time" []]⟩,
        ⟨"user", .blocks [.toolResult "call_weather" (Sum.inr [.text "68F"])]⟩,
        ⟨"user", .blocks [.toolResult "call_time" (Sum.inr [.text "2:30 PM"])]⟩ ]
    ∧ (anthropic_history unusedPyEnv weatherHistory).map List.length = .ok 4
    ∧ (4 : Nat) ≠ 3 :=
  ⟨rfl, rfl, by decide⟩

/-- C6 as amended: the Anthropic history encoding emits exactly one wire
message per history message — consecutive tool-role messages are not
batched — and every successfully encoded tool-role message is a user
message containing exactly one `tool_result` block (so the example
history encodes to four wire messages, the last two each carrying a
single `tool_result`, weather before time). -/
theorem claim_C6_amended (env : PyEnv) :
    (∀ (history : List PMsg) (ws : List AMessage),
        anthropic_history env history = .ok ws → ws.length = history.length)
    ∧ (∀ (m : PMsg) (am : AMessage), m.role = .tool →
        message_to_anthropic env m = .ok am →
          am.role = "user" ∧ ∃ tcid c, am.content = .blocks [.toolResult tcid c]) := by
  constructor
  · intro history ws h
    exact mapMExcept_length (message_to_anthropic env) history ws h
  · intro m am hrole h
    obtain ⟨role, name, content, tool_calls, tool_call_id⟩ := m
    simp only at hrole
    subst hrole
    simp only [message_to_anthropic] at h
    cases ht : tool_result_message_to_block ⟨.tool, name, content, tool_calls, tool_call_id⟩ with
    | error e => rw [ht] at h; simp [Except.map] at h
    | ok b =>
        rw [ht] at h
        simp only [Except.map] at h
        injection h with h
        subst h
        refine ⟨rfl, ?_⟩
        simp only [tool_result_message_to_block] at ht
        cases tool_call_id with
        | none => simp at ht
        | some tcid =>
            cases content with
            | str s =>
                simp only at ht
                injection ht with ht
                subst ht
                exact ⟨tcid, Sum.inl s, rfl⟩
            | parts ps =>
                simp only at ht
                cases hb : toolResultContentBlocks ps with
                | error e => rw [hb] at ht; simp [Except.map] at ht
                | ok bs =>
                    rw [hb] at ht
                    simp only [Except.map] at ht
                    injection ht with ht
                    subst ht
                    exact ⟨tcid, Sum.inr bs, rfl⟩

/-- Closed instance of `claim_C6_amended` on the example history and on a
concrete tool message. -/
theorem claim_C6_amended_witness :
    ([ ⟨"user", .blocks [.text "Tell me the weather"]⟩,
       ⟨"assistant", .blocks
         [.text "On it",
          .toolUse "call_weather" "get_weather" [],
          .toolUse "call_time" "get_time" []]⟩,
       ⟨"user", .blocks [.toolResult "call_weather" (Sum.inr [.text "68F"])]⟩,
       ⟨"user", .blocks [.toolResult "call_time" (Sum.inr [.text "2:30 PM"])]⟩ ] :
        List AMessage).length = weatherHistory.length
    ∧ ((⟨"user", .blocks [.toolResult "t1" (Sum.inr [.text "ok"])]⟩ : AMessage).role = "user"
        ∧ ∃ tcid c, (⟨"user", .blocks [.toolResult "t1" (Sum.inr [.text "ok"])]⟩ :
            AMessage).content = .blocks [.toolResult tcid c]) :=
  ⟨(claim_C6_amended unusedPyEnv).1 weatherHistory _ rfl,
   (claim_C6_amended unusedPyEnv).2
     { role := .tool, content := .parts [.text "ok"], tool_call_id := some "t1" }
     _ rfl rfl⟩

/-- An open reasoning group absorbs every following think part carrying
the group's `encrypted` value, appending their texts to the summaries. -/
theorem groupLoop_extend (role : Role) (e : Option String) (xs : List String) :
    ∀ (ss : List String) (rest : List CPart),
      groupLoop role e ss ((xs.map fun s => CPart.think s e) ++ rest) =
        groupLoop role e (ss ++ xs) rest := by
  induction xs with
  | nil => intro ss rest; simp
  | cons x xs ih =>
      intro ss rest
      simp only [List.map_cons, List.cons_append, groupLoop, eq_self_iff_true, if_true,
        List.append_eq]
      rw [ih (ss ++ [x]) rest]
      simp

/-- C7: in the OpenAI Responses encoding of an assistant message, runs of
contiguous `ThinkPart`s sharing the same `encrypted` value coalesce into
one reasoning item listing one summary entry per part in order and
carrying that value as `encrypted_content`; a following run with a
different value opens a fresh reasoning item, and a non-think run emits
an assistant message item with `output_text` entries. -/
theorem claim_C7 (a : String) (as : List String) (b : String) (bs : List String)
    (e1 e2 : Option String) (t : String) (hne : e2 ≠ e1) (ht : ¬t = "") :
    message_to_openai
      { role := .assistant,
        content := .parts
          (((a :: as).map fun s => CPart.think s e1) ++
           ((b :: bs).map fun s => CPart.think s e2) ++ [.text t]) } =
      [.reasoning ((a :: as).map SummaryText.mk) e1,
       .reasoning ((b :: bs).map SummaryText.mk) e2,
       .outputMessage [⟨t⟩]] := by
  simp only [message_to_openai, List.map_cons, List.cons_append, List.append_assoc,
    List.isEmpty_cons, Bool.false_eq_true, if_false, Option.getD_none, List.map_nil,
    List.append_nil]
  simp only [splitOnThinkAux, flushPending, List.isEmpty_nil, if_true, List.nil_append]
  rw [groupLoop_extend]
  simp only [List.singleton_append, groupLoop, if_neg hne]
  rw [groupLoop_extend]
  simp only [List.singleton_append, groupLoop, splitOnThinkAux, flushPending,
    List.isEmpty_cons, Bool.false_eq_true, if_false, content_parts_to_output_items,
    if_neg ht, List.append_nil, List.map_cons, List.map_nil]
  simp

/-- Closed instance of `claim_C7`: the spec's concrete scenario
`[ThinkPart("A","e1"), ThinkPart("B","e1"), ThinkPart("C","e2"),
TextPart("done")]`. -/
theorem claim_C7_witness :
    message_to_openai
      { role := .assistant,
        content := .parts
          [.think "A" (some "e1"), .think "B" (some "e1"),
           .think "C" (some "e2"), .text "done"] } =
      [.reasoning [⟨"A"⟩, ⟨"B"⟩] (some "e1"),
       .reasoning [⟨"C"⟩] (some "e2"),
       .outputMessage [⟨"done"⟩]] :=
  claim_C7 "A" ["B"] "C" [] (some "e1") (some "e2") "done" (by decide) (by decide)

/-- C8, counterexample: `message_to_anthropic` encodes an `ImageURLPart`
whose URL is a `data:` URI to an image block with a *url* source carrying
the URI verbatim — no base64 source and no media-type restriction. -/
theorem claim_C8_counterexample :
    message_to_anthropic unusedPyEnv
        { role := .user,
          content := .parts [.imageURL "data:image/png;base64,iVBORw0KGgo=" none] } =
      .ok ⟨"user", .blocks [.image (.url "data:image/png;base64,iVBORw0KGgo=")]⟩
    ∧ AImageSource.is_base64 (.url "data:image/png;base64,iVBORw0KGgo=") = false :=
  ⟨rfl, rfl⟩

/-- C8 as amended: in user and assistant content, every `ImageURLPart` —
whatever its URL scheme, `http(s)://` or `data:` alike — encodes to an
image block with a url source carrying the URL unchanged; the encoder
never produces a base64 source and applies no media-type restriction. -/
theorem claim_C8_amended (env : PyEnv) (url : String) (pid : Option String) :
    message_to_anthropic env { role := .user, content := .parts [.imageURL url pid] } =
      .ok ⟨"user", .blocks [.image (.url url)]⟩
    ∧ message_to_anthropic env
        { role := .assistant, content := .parts [.imageURL url pid] } =
      .ok ⟨"assistant", .blocks [.image (.url url)]⟩
    ∧ (∀ p : CPart, (contentPartToBlocks p).all
        (fun b => match b with
          | .image src => !src.is_base64
          | _ => true) = true) := by
  refine ⟨rfl, rfl, fun p => ?_⟩
  cases p with
  | text t => rfl
  | imageURL u i => rfl
  | audioURL u i => rfl
  | think th e => cases e <;> rfl

end Kosong
